import Mathlib

/-!
Shallow embedding of the mem-db-utils repository (TechPrismatica/mem-db-utils).

Source files embedded:
  * `src/mem_db_utils/config.py` — the `DBType` enum and the pydantic
    settings model `_DBConfig` with its `validate_db_type` field validator.
  * `src/mem_db_utils/asyncio/__init__.py` — the async `MemDBConnector`
    (`__init__`, `connect`, `_sentinel`).

The blocking (sync) `MemDBConnector` module is not present under `src/`
(only its tests are), so it is modelled from the spec where needed.

Transport calls (`redis.asyncio.from_url`, `redis.asyncio.Sentinel`,
`Sentinel.master_for`, `connection.select`) are external collaborators; they
are modelled by an oracle that answers each call, and `connect` returns both
the list of issued transport requests (in order, with their parameters) and
the final result, together with the post-call connector state.
-/

namespace MemDbUtils

/-- `DBType` from `config.py`: the `StrEnum` of supported store types. -/
inductive DBType where
  | redis
  | memcached
  | dragonfly
  | valkey
deriving DecidableEq, Repr

/-- The string value of a `DBType` member (`StrEnum` values in the source). -/
def DBType.value : DBType → String
  | .redis => "redis"
  | .memcached => "memcached"
  | .dragonfly => "dragonfly"
  | .valkey => "valkey"

/-- Error categories raised during `_DBConfig` validation:
`missingURI` is pydantic's missing-required-field error for `db_url`
(the spec's `MissingURIError`); `unsupportedProtocol s` is the
`ValueError(f"Unsupported connection protocol: {conn_protocol}")` raised by
`validate_db_type` (the spec's `UnsupportedProtocolError`), carrying the
offending scheme `s`. -/
inductive ConfigError where
  | missingURI
  | unsupportedProtocol (scheme : String)
deriving DecidableEq, Repr

/-- Characters of a string before the first occurrence of `"://"`; the whole
string when `"://"` does not occur.  This is Python
`s.split("://")[0]` as used in `validate_db_type`. -/
def schemeChars : List Char → List Char
  | [] => []
  | c :: rest =>
    if c = ':' ∧ rest.take 2 = ['/', '/'] then []
    else c :: schemeChars rest

/-- Python `s.split("://")[0]`: the substring before the first `"://"`. -/
def schemeOf (s : String) : String :=
  String.mk (schemeChars s.data)

/-- Embedding of `_DBConfig.validate_db_type` (`config.py` lines 26-41):
given the provided `db_type` value and `info.data.get("db_url", "")`,
returns the validated `db_type` or raises.  When the provided value is
`None` it infers the type from the URI scheme; any other scheme value
(including empty) raises `Unsupported connection protocol`. -/
def validate_db_type (value : Option DBType) (db_url_data : String) :
    Except ConfigError (Option DBType) :=
  match value with
  | none =>
    let conn_protocol := schemeOf db_url_data
    if conn_protocol = "redis" then .ok (some DBType.redis)
    else if conn_protocol = "memcached" then .ok (some DBType.memcached)
    else if conn_protocol = "dragonfly" then .ok (some DBType.dragonfly)
    else if conn_protocol = "valkey" then .ok (some DBType.valkey)
    else .error (ConfigError.unsupportedProtocol conn_protocol)
  | some v => .ok (some v)

/-- The validated `_DBConfig` settings record (`config.py` lines 15-20). -/
structure DBConfig where
  db_url : String
  db_type : Option DBType
  redis_connection_type : Option String
  redis_master_service : Option String
  db_timeout : Option Int
deriving DecidableEq, Repr

/-- Embedding of `_DBConfig(...)` construction with every field value passed
through validation (as in the repository's tests, e.g.
`_DBConfig(db_url=url, db_type=None)`): `db_url` is required, so an absent
value yields pydantic's missing-field error; the `db_type` field validator
then runs with `info.data.get("db_url", "")` (so a missing `db_url` is seen
by it as `""`).  Pydantic collects the per-field errors in field order, so
the failure case carries the list of all errors raised. -/
def mkDBConfig (db_url : Option String) (db_type : Option DBType)
    (redis_connection_type : Option String) (redis_master_service : Option String)
    (db_timeout : Option Int := some 30) : Except (List ConfigError) DBConfig :=
  let urlErrs : List ConfigError :=
    match db_url with
    | none => [ConfigError.missingURI]
    | some _ => []
  match validate_db_type db_type (db_url.getD "") with
  | .error e => .error (urlErrs ++ [e])
  | .ok t =>
    match db_url with
    | none => .error urlErrs
    | some url =>
      .ok { db_url := url, db_type := t,
            redis_connection_type := redis_connection_type,
            redis_master_service := redis_master_service,
            db_timeout := db_timeout }

/-- Result of `urllib.parse.urlparse` restricted to the three components the
connector reads: `hostname` (lower-cased, `None` when empty or when the URI
has no `"://"`), `port` (the digits after the last `:` of the host part),
and `password` (the userinfo after its first `:`). -/
structure ParsedURI where
  hostname : Option String
  port : Option Nat
  password : Option String
deriving DecidableEq, Repr

/-- The characters after the first `"://"`, or `none` when it does not occur
(Python `urlparse` then has an empty netloc). -/
def afterSchemeChars : List Char → Option (List Char)
  | [] => none
  | c :: rest =>
    if c = ':' ∧ rest.take 2 = ['/', '/'] then some (rest.drop 2)
    else afterSchemeChars rest

/-- Split a character list at the last occurrence of `sep`; `none` when `sep`
does not occur. -/
def splitAtLast (sep : Char) : List Char → Option (List Char × List Char)
  | [] => none
  | c :: rest =>
    match splitAtLast sep rest with
    | some (a, b) => some (c :: a, b)
    | none => if c = sep then some ([], rest) else none

/-- Split a character list at the first occurrence of `sep`; `none` when
`sep` does not occur. -/
def splitAtFirst (sep : Char) : List Char → Option (List Char × List Char)
  | [] => none
  | c :: rest =>
    if c = sep then some ([], rest)
    else
      match splitAtFirst sep rest with
      | some (a, b) => some (c :: a, b)
      | none => none

/-- Decimal digits to a number (used for the port component). -/
def digitsToNat (l : List Char) : Nat :=
  l.foldl (fun acc c => acc * 10 + (c.toNat - 48)) 0

/-- Embedding of `urllib.parse.urlparse` for the components `_sentinel`
reads, over URIs of the spec's shape
`<scheme>://[user[:password]@]host[:port][/path]`: the netloc is the part
after the first `"://"` up to the first `/`, `?` or `#`; the userinfo is the
part before the last `@` of the netloc; the password is the userinfo after
its first `:`; the port is the all-digit suffix after the last `:` of the
host part; the hostname is lower-cased. -/
def urlparse (uri : String) : ParsedURI :=
  match afterSchemeChars uri.data with
  | none => { hostname := none, port := none, password := none }
  | some rest =>
    let netloc := rest.takeWhile (fun c => ¬ (c = '/' ∨ c = '?' ∨ c = '#'))
    let userinfoAndHost :=
      match splitAtLast '@' netloc with
      | some (u, hp) => (some u, hp)
      | none => ((none : Option (List Char)), netloc)
    let password :=
      match userinfoAndHost.1 with
      | none => none
      | some u =>
        match splitAtFirst ':' u with
        | some (_, pw) => some (String.mk pw)
        | none => none
    let hostAndPort :=
      match splitAtLast ':' userinfoAndHost.2 with
      | some (h, p) =>
        if p ≠ [] ∧ p.all Char.isDigit then (h, some (digitsToNat p))
        else (userinfoAndHost.2, (none : Option Nat))
      | none => (userinfoAndHost.2, none)
    { hostname :=
        if hostAndPort.1 = [] then none
        else some (String.mk (hostAndPort.1.map Char.toLower)),
      port := hostAndPort.2,
      password := password }

/-- The `**kwargs` keys `connect`/`_sentinel` read: `decode_response`
(caller-facing decode flag, absent when not passed) and `timeout` (sentinel
socket timeout, absent when not passed). -/
structure Kwargs where
  decode_response : Option Bool := none
  timeout : Option Int := none
deriving DecidableEq, Repr

/-- One transport request issued by a connect call, with its parameters as
they cross the boundary to the client library (`H` = connection-handle
type, `S` = sentinel-client type). Note the transport-facing field is named
`decode_responses` (the caller-facing kwarg is `decode_response`). -/
inductive Event (H S : Type) where
  | from_url (url : String) (db : Int) (decode_responses : Bool)
  | sentinelInit (sentinel_hosts : List (Option String × Option Nat))
      (socket_timeout : Option Int) (password : Option String)
  | master_for (client : S) (service : Option String) (decode_responses : Bool)
  | select (conn : H) (db : Int)
deriving DecidableEq, Repr

/-- The external transport (the redis client library), as an oracle that
answers each request with a result or a transport-level error `E`. -/
structure Oracle (H S E : Type) where
  from_url : String → Int → Bool → Except E H
  sentinelInit : List (Option String × Option Nat) → Option Int → Option String → Except E S
  master_for : S → Option String → Bool → Except E H
  select : H → Int → Except E Unit

/-- The `MemDBConnector` instance fields (the class declares
`__slots__ = ("uri", "db_type", "connection_type", "service")`). -/
structure MemDBConnector where
  uri : String
  db_type : Option DBType
  connection_type : Option String
  service : Option String
deriving DecidableEq, Repr

/-- Python `a or b` on optional strings: `None` and `""` are falsy. -/
def pyOr (a b : Option String) : Option String :=
  match a with
  | some s => if s = "" then b else some s
  | none => b

/-- Embedding of `MemDBConnector.__init__` (`asyncio/__init__.py` lines
11-18): copies `uri` and `db_type` from the process-wide config, leaves
`service` and `connection_type` as `None`, and only when the store type is
`REDIS` resolves them as `override or config_value` (Python `or`). -/
def MemDBConnector.init (cfg : DBConfig) (redis_type : Option String := none)
    (master_service : Option String := none) : MemDBConnector :=
  let self0 : MemDBConnector :=
    { uri := cfg.db_url, db_type := cfg.db_type,
      service := none, connection_type := none }
  if cfg.db_type = some DBType.redis then
    { self0 with
      connection_type := pyOr redis_type cfg.redis_connection_type,
      service := pyOr master_service cfg.redis_master_service }
  else self0

/-- What a connect call leaves behind: the connector state after the call
(`post`), the ordered list of transport requests it issued (`trace`), and
the returned handle or propagated error (`result`). -/
structure ConnectResult (H S E : Type) where
  post : MemDBConnector
  trace : List (Event H S)
  result : Except E H
deriving Repr

/-- Embedding of `MemDBConnector._sentinel` (`asyncio/__init__.py` lines
32-55): parses the URI, builds the single-element host list, constructs the
sentinel client with `socket_timeout=kwargs.get("timeout",
DBConfig.db_timeout)` and the parsed password, asks it for the master of
`self.service` with `decode_responses=kwargs.get("decode_response", True)`,
issues `select(db)` on the returned connection, and returns it; a failure
at any step propagates and stops the sequence. -/
def MemDBConnector._sentinel {H S E : Type} (self : MemDBConnector)
    (o : Oracle H S E) (cfg : DBConfig) (db : Int) (kw : Kwargs) :
    ConnectResult H S E :=
  let parsed_uri := urlparse self.uri
  let sentinel_hosts : List (Option String × Option Nat) :=
    [(parsed_uri.hostname, parsed_uri.port)]
  let socket_timeout : Option Int :=
    match kw.timeout with
    | some t => some t
    | none => cfg.db_timeout
  let e0 : Event H S := Event.sentinelInit sentinel_hosts socket_timeout parsed_uri.password
  match o.sentinelInit sentinel_hosts socket_timeout parsed_uri.password with
  | .error e => { post := self, trace := [e0], result := .error e }
  | .ok sentinel =>
    let d := kw.decode_response.getD true
    let e1 : Event H S := Event.master_for sentinel self.service d
    match o.master_for sentinel self.service d with
    | .error e => { post := self, trace := [e0, e1], result := .error e }
    | .ok connection_object =>
      let e2 : Event H S := Event.select connection_object db
      match o.select connection_object db with
      | .error e => { post := self, trace := [e0, e1, e2], result := .error e }
      | .ok _ => { post := self, trace := [e0, e1, e2], result := .ok connection_object }

/-- Embedding of `MemDBConnector.connect` (`asyncio/__init__.py` lines
20-30): when `self.connection_type == "sentinel"` delegates to `_sentinel`;
otherwise issues one `from_url(url=self.uri, db=db,
decode_responses=kwargs.get("decode_response", True))` request and returns
its result unchanged.  `db` defaults to `0` as in the source signature. -/
def MemDBConnector.connect {H S E : Type} (self : MemDBConnector)
    (o : Oracle H S E) (cfg : DBConfig) (db : Int := 0) (kw : Kwargs := {}) :
    ConnectResult H S E :=
  if self.connection_type = some "sentinel" then
    MemDBConnector._sentinel self o cfg db kw
  else
    let d := kw.decode_response.getD true
    { post := self, trace := [Event.from_url self.uri db d],
      result := o.from_url self.uri db d }

/-! ### Blocking variant, modelled from the spec

Modelled from the spec: the blocking `MemDBConnector` (module
`mem_db_utils/__init__.py`) is not among the files under `src/` — only its
tests are — so it is defined here from the spec's words: construction per
§4.2 (same resolution as the suspending variant), the direct path per §4.3
(one connection request to `uri` with the database index and decode flag),
and the sentinel path per §4.4 (parse the URI; a single `(host, port)`
endpoint; sentinel client with `timeoutSeconds ?? connectTimeoutSeconds`
and the parsed password; master lookup with the decode flag; then exactly
one `SELECT databaseIndex`, strictly after master resolution; return the
master handle; a failure at any step terminates the call). -/

/-- Modelled from the spec (§4.2): blocking-variant construction — reads
the resolved config; for the Redis-protocol type resolves
`connectionMode`/`masterServiceName` from override-else-config; otherwise
leaves both unset. -/
def syncInit (cfg : DBConfig) (redis_type : Option String := none)
    (master_service : Option String := none) : MemDBConnector :=
  let base : MemDBConnector :=
    { uri := cfg.db_url, db_type := cfg.db_type,
      service := none, connection_type := none }
  if cfg.db_type = some DBType.redis then
    { base with
      connection_type := pyOr redis_type cfg.redis_connection_type,
      service := pyOr master_service cfg.redis_master_service }
  else base

/-- Modelled from the spec (§4.3-§4.4): blocking-variant `connect` — the
sentinel path when `connectionMode == "sentinel"` (steps 1-6 of §4.4),
else the direct path (§4.3) issuing a single connection request to `uri`
with the database index and decode flag and returning the handle
unchanged. -/
def syncConnect {H S E : Type} (self : MemDBConnector) (o : Oracle H S E)
    (cfg : DBConfig) (db : Int := 0) (kw : Kwargs := {}) :
    ConnectResult H S E :=
  if self.connection_type = some "sentinel" then
    let parsed := urlparse self.uri
    let endpoints : List (Option String × Option Nat) := [(parsed.hostname, parsed.port)]
    let stimeout : Option Int :=
      match kw.timeout with
      | some t => some t
      | none => cfg.db_timeout
    let e0 : Event H S := Event.sentinelInit endpoints stimeout parsed.password
    match o.sentinelInit endpoints stimeout parsed.password with
    | .error e => { post := self, trace := [e0], result := .error e }
    | .ok sc =>
      let d := kw.decode_response.getD true
      let e1 : Event H S := Event.master_for sc self.service d
      match o.master_for sc self.service d with
      | .error e => { post := self, trace := [e0, e1], result := .error e }
      | .ok master =>
        let e2 : Event H S := Event.select master db
        match o.select master db with
        | .error e => { post := self, trace := [e0, e1, e2], result := .error e }
        | .ok _ => { post := self, trace := [e0, e1, e2], result := .ok master }
  else
    let d := kw.decode_response.getD true
    { post := self, trace := [Event.from_url self.uri db d],
      result := o.from_url self.uri db d }

/-! ### Concrete fixtures for witnesses -/

/-- A deterministic transport oracle over `Nat` handles: every request
succeeds (`from_url` returns handle 7, the sentinel client is 1, the
master handle is 2). -/
def oracleNat : Oracle Nat Nat String :=
  { from_url := fun _ _ _ => .ok 7,
    sentinelInit := fun _ _ _ => .ok 1,
    master_for := fun _ _ _ => .ok 2,
    select := fun _ _ => .ok () }

/-- Resolved config of the spec's example scenario 1: a direct Redis URI. -/
def cfgRedisDirect : DBConfig :=
  { db_url := "redis://localhost:6379/0", db_type := some DBType.redis,
    redis_connection_type := none, redis_master_service := none,
    db_timeout := some 30 }

/-- Resolved config of the spec's example scenario 2: sentinel mode with a
password-bearing URI and a master service name. -/
def cfgSent : DBConfig :=
  { db_url := "redis://:pw@localhost:6379/0", db_type := some DBType.redis,
    redis_connection_type := some "sentinel",
    redis_master_service := some "mymaster", db_timeout := some 30 }

/-- A non-Redis resolved config (memcached). -/
def cfgMemcached : DBConfig :=
  { db_url := "memcached://localhost:11211", db_type := some DBType.memcached,
    redis_connection_type := none, redis_master_service := none,
    db_timeout := some 30 }

/-- Connector built from `cfgRedisDirect` with no overrides. -/
def connDirect : MemDBConnector := MemDBConnector.init cfgRedisDirect none none

/-- Connector built from `cfgSent` with no overrides. -/
def connSent : MemDBConnector := MemDBConnector.init cfgSent none none

/-! ### Claim theorems -/

/-- C1: for every connector with `connection_type ≠ "sentinel"`,
`connect(db, decode_response)` issues exactly one direct connection request
with exactly `{url := self.uri, db, decode_responses}` and returns the
transport's result unchanged; `db` defaults to `0`, the decode flag
defaults to `true` when `decode_response` is omitted, and the caller-facing
`decode_response` kwarg becomes the transport-facing `decode_responses`
parameter. -/
theorem connect_direct_spec {H S E : Type} (o : Oracle H S E) (cfg : DBConfig)
    (self : MemDBConnector) (db : Int) (kw : Kwargs)
    (h : self.connection_type ≠ some "sentinel") :
    self.connect o cfg db kw =
      { post := self,
        trace := [Event.from_url self.uri db (kw.decode_response.getD true)],
        result := o.from_url self.uri db (kw.decode_response.getD true) } ∧
    self.connect o cfg = self.connect o cfg 0 {} ∧
    ({} : Kwargs).decode_response.getD true = true := by
  refine ⟨?_, rfl, rfl⟩
  simp only [MemDBConnector.connect, if_neg h]

/-- Witness for C1 at `connDirect` with `db = 1` and no kwargs. -/
theorem connect_direct_spec_witness :
    connDirect.connection_type ≠ some "sentinel" ∧
    (connDirect.connect oracleNat cfgRedisDirect 1 {} =
      { post := connDirect,
        trace := [Event.from_url connDirect.uri 1 (({} : Kwargs).decode_response.getD true)],
        result := oracleNat.from_url connDirect.uri 1 (({} : Kwargs).decode_response.getD true) } ∧
     connDirect.connect oracleNat cfgRedisDirect =
       connDirect.connect oracleNat cfgRedisDirect 0 {} ∧
     ({} : Kwargs).decode_response.getD true = true) :=
  ⟨by decide, connect_direct_spec oracleNat cfgRedisDirect connDirect 1 {} (by decide)⟩

/-- C3: a URI whose scheme (the substring before the first `"://"`) is one
of `redis`, `memcached`, `dragonfly`, `valkey`, resolved with no explicit
store type, yields the correspondingly mapped `DBType`. -/
theorem resolve_scheme_mapped (url : String) (rct rms : Option String)
    (dt : Option Int)
    (h : schemeOf url = "redis" ∨ schemeOf url = "memcached" ∨
         schemeOf url = "dragonfly" ∨ schemeOf url = "valkey") :
    mkDBConfig (some url) none rct rms dt =
      .ok { db_url := url,
            db_type := some
              (if schemeOf url = "redis" then DBType.redis
               else if schemeOf url = "memcached" then DBType.memcached
               else if schemeOf url = "dragonfly" then DBType.dragonfly
               else DBType.valkey),
            redis_connection_type := rct, redis_master_service := rms,
            db_timeout := dt } := by
  rcases h with h | h | h | h <;>
    simp [mkDBConfig, validate_db_type, h]

/-- Witness for C3 at the spec's scenario-1 URI (`redis` scheme). -/
theorem resolve_scheme_mapped_witness :
    (schemeOf "redis://localhost:6379/0" = "redis" ∨
     schemeOf "redis://localhost:6379/0" = "memcached" ∨
     schemeOf "redis://localhost:6379/0" = "dragonfly" ∨
     schemeOf "redis://localhost:6379/0" = "valkey") ∧
    mkDBConfig (some "redis://localhost:6379/0") none none none (some 30) =
      .ok { db_url := "redis://localhost:6379/0",
            db_type := some
              (if schemeOf "redis://localhost:6379/0" = "redis" then DBType.redis
               else if schemeOf "redis://localhost:6379/0" = "memcached" then DBType.memcached
               else if schemeOf "redis://localhost:6379/0" = "dragonfly" then DBType.dragonfly
               else DBType.valkey),
            redis_connection_type := none, redis_master_service := none,
            db_timeout := some 30 } :=
  ⟨by decide,
   resolve_scheme_mapped "redis://localhost:6379/0" none none (some 30) (by decide)⟩

/-- C4: a URI whose scheme maps to no known store type, resolved with no
explicit store type, fails with `UnsupportedProtocolError` carrying the
rejected scheme value. -/
theorem resolve_scheme_unsupported (url : String) (rct rms : Option String)
    (dt : Option Int)
    (h1 : schemeOf url ≠ "redis") (h2 : schemeOf url ≠ "memcached")
    (h3 : schemeOf url ≠ "dragonfly") (h4 : schemeOf url ≠ "valkey") :
    mkDBConfig (some url) none rct rms dt =
      .error [ConfigError.unsupportedProtocol (schemeOf url)] := by
  simp [mkDBConfig, validate_db_type, h1, h2, h3, h4]

/-- Witness for C4 at the spec's scenario-3 URI: scheme `"mysql"` is
rejected and named in the error. -/
theorem resolve_scheme_unsupported_witness :
    (schemeOf "mysql://localhost:3306" ≠ "redis" ∧
     schemeOf "mysql://localhost:3306" ≠ "memcached" ∧
     schemeOf "mysql://localhost:3306" ≠ "dragonfly" ∧
     schemeOf "mysql://localhost:3306" ≠ "valkey") ∧
    mkDBConfig (some "mysql://localhost:3306") none none none (some 30) =
      .error [ConfigError.unsupportedProtocol (schemeOf "mysql://localhost:3306")] ∧
    schemeOf "mysql://localhost:3306" = "mysql" :=
  ⟨⟨by decide, by decide, by decide, by decide⟩,
   resolve_scheme_unsupported "mysql://localhost:3306" none none (some 30)
     (by decide) (by decide) (by decide) (by decide),
   by decide⟩

/-- C5 counterexample: an empty-string URI with no explicit store type does
NOT fail with `MissingURIError` — it fails with `UnsupportedProtocolError`
naming the empty scheme, because `db_url = ""` is a valid value for the
required string field and only the scheme match rejects it. -/
theorem resolve_empty_uri_counterexample :
    mkDBConfig (some "") none none none (some 30) =
      .error [ConfigError.unsupportedProtocol ""] ∧
    ConfigError.missingURI ∉ [ConfigError.unsupportedProtocol ""] :=
  ⟨rfl, by decide⟩

/-- C5 amended: an absent URI fails with `MissingURIError` among the
reported errors (with no explicit store type, an `UnsupportedProtocolError`
for the empty scheme is reported alongside it); an empty-string URI with no
explicit store type fails with `UnsupportedProtocolError` naming the empty
scheme, not `MissingURIError`; and an empty-string URI with an explicit
store type resolves successfully. -/
theorem resolve_missing_or_empty_uri (dtI : Option DBType)
    (rct rms : Option String) (dt : Option Int) :
    (∃ errs, mkDBConfig none dtI rct rms dt = .error errs ∧
       ConfigError.missingURI ∈ errs) ∧
    mkDBConfig (some "") none rct rms dt =
      .error [ConfigError.unsupportedProtocol ""] ∧
    (∀ t, mkDBConfig (some "") (some t) rct rms dt =
      .ok { db_url := "", db_type := some t, redis_connection_type := rct,
            redis_master_service := rms, db_timeout := dt }) := by
  refine ⟨?_, rfl, fun t => rfl⟩
  cases dtI with
  | none =>
    exact ⟨[ConfigError.missingURI, ConfigError.unsupportedProtocol ""],
      rfl, by decide⟩
  | some t => exact ⟨[ConfigError.missingURI], rfl, by decide⟩

/-- C6: when the resolved store type is not `REDIS`, construction leaves
`connection_type` and `service` as `None` even when overrides are passed. -/
theorem init_non_redis_unset (cfg : DBConfig) (rt ms : Option String)
    (h : cfg.db_type ≠ some DBType.redis) :
    (MemDBConnector.init cfg rt ms).connection_type = none ∧
    (MemDBConnector.init cfg rt ms).service = none := by
  simp [MemDBConnector.init, if_neg h]

/-- Witness for C6: a memcached config with both overrides supplied. -/
theorem init_non_redis_unset_witness :
    cfgMemcached.db_type ≠ some DBType.redis ∧
    ((MemDBConnector.init cfgMemcached (some "sentinel") (some "mymaster")).connection_type = none ∧
     (MemDBConnector.init cfgMemcached (some "sentinel") (some "mymaster")).service = none) :=
  ⟨by decide,
   init_non_redis_unset cfgMemcached (some "sentinel") (some "mymaster") (by decide)⟩

/-- A Redis resolved config with both sentinel fields set, used to exhibit
the `or`-coalescing of constructor overrides. -/
def cfgOrCase : DBConfig :=
  { db_url := "redis://localhost:6379/0", db_type := some DBType.redis,
    redis_connection_type := some "sentinel",
    redis_master_service := some "mymaster", db_timeout := some 30 }

/-- C7 counterexample: with store type `REDIS`, a supplied empty-string
override does NOT win — Python `or` treats `""` as falsy, so the connector
falls back to the config values instead of keeping the supplied `""`. -/
theorem init_override_empty_counterexample :
    (MemDBConnector.init cfgOrCase (some "") (some "")).connection_type ≠ some "" ∧
    (MemDBConnector.init cfgOrCase (some "") (some "")).connection_type = some "sentinel" ∧
    (MemDBConnector.init cfgOrCase (some "") (some "")).service ≠ some "" ∧
    (MemDBConnector.init cfgOrCase (some "") (some "")).service = some "mymaster" := by
  decide

/-- C7 amended: with store type `REDIS`, a supplied non-empty override wins
(`connection_type` equals it, and likewise `service`); a `None` or
empty-string override falls back to the resolved config's value (Python
`or`-coalescing, not null-coalescing). -/
theorem init_redis_override_truthy (cfg : DBConfig) (rt ms : Option String)
    (h : cfg.db_type = some DBType.redis) :
    ((∀ s, rt = some s → s ≠ "" →
        (MemDBConnector.init cfg rt ms).connection_type = some s) ∧
     ((rt = none ∨ rt = some "") →
        (MemDBConnector.init cfg rt ms).connection_type = cfg.redis_connection_type)) ∧
    ((∀ s, ms = some s → s ≠ "" →
        (MemDBConnector.init cfg rt ms).service = some s) ∧
     ((ms = none ∨ ms = some "") →
        (MemDBConnector.init cfg rt ms).service = cfg.redis_master_service)) := by
  simp only [MemDBConnector.init, if_pos h]
  refine ⟨⟨fun s hs hne => ?_, fun hf => ?_⟩, ⟨fun s hs hne => ?_, fun hf => ?_⟩⟩
  · subst hs; simp [pyOr, hne]
  · rcases hf with hf | hf <;> subst hf <;> simp [pyOr]
  · subst hs; simp [pyOr, hne]
  · rcases hf with hf | hf <;> subst hf <;> simp [pyOr]

/-- Witness for C7's amended theorem at `cfgOrCase` with a non-empty
connection-mode override and an absent service override. -/
theorem init_redis_override_truthy_witness :
    cfgOrCase.db_type = some DBType.redis ∧
    (((∀ s, (some "cluster" : Option String) = some s → s ≠ "" →
         (MemDBConnector.init cfgOrCase (some "cluster") none).connection_type = some s) ∧
      (((some "cluster" : Option String) = none ∨ (some "cluster" : Option String) = some "") →
         (MemDBConnector.init cfgOrCase (some "cluster") none).connection_type =
           cfgOrCase.redis_connection_type)) ∧
     ((∀ s, (none : Option String) = some s → s ≠ "" →
         (MemDBConnector.init cfgOrCase (some "cluster") none).service = some s) ∧
      (((none : Option String) = none ∨ (none : Option String) = some "") →
         (MemDBConnector.init cfgOrCase (some "cluster") none).service =
           cfgOrCase.redis_master_service))) :=
  ⟨by decide, init_redis_override_truthy cfgOrCase (some "cluster") none (by decide)⟩

/-- C10: for a connector built from a non-Redis resolved config,
`connection_type` is necessarily `None`, so every connect call takes the
direct branch, and the configured URI is handed to the Redis-protocol
`from_url` transport call regardless of store type. -/
theorem connect_non_redis_direct {H S E : Type} (o : Oracle H S E)
    (cfg : DBConfig) (rt ms : Option String) (db : Int) (kw : Kwargs)
    (h : cfg.db_type ≠ some DBType.redis) :
    (MemDBConnector.init cfg rt ms).connection_type = none ∧
    (MemDBConnector.init cfg rt ms).connect o cfg db kw =
      { post := MemDBConnector.init cfg rt ms,
        trace := [Event.from_url cfg.db_url db (kw.decode_response.getD true)],
        result := o.from_url cfg.db_url db (kw.decode_response.getD true) } := by
  have hct : (MemDBConnector.init cfg rt ms).connection_type = none := by
    simp only [MemDBConnector.init, if_neg h]
  have huri : (MemDBConnector.init cfg rt ms).uri = cfg.db_url := by
    simp only [MemDBConnector.init]
    split <;> rfl
  refine ⟨hct, ?_⟩
  simp only [MemDBConnector.connect, hct, huri]
  simp

/-- Witness for C10: a memcached connector with overrides, `db = 2`. -/
theorem connect_non_redis_direct_witness :
    cfgMemcached.db_type ≠ some DBType.redis ∧
    ((MemDBConnector.init cfgMemcached (some "sentinel") (some "m")).connection_type = none ∧
     (MemDBConnector.init cfgMemcached (some "sentinel") (some "m")).connect
         oracleNat cfgMemcached 2 {} =
       { post := MemDBConnector.init cfgMemcached (some "sentinel") (some "m"),
         trace := [Event.from_url cfgMemcached.db_url 2 (({} : Kwargs).decode_response.getD true)],
         result := oracleNat.from_url cfgMemcached.db_url 2 (({} : Kwargs).decode_response.getD true) }) :=
  ⟨by decide,
   connect_non_redis_direct oracleNat cfgMemcached (some "sentinel") (some "m") 2 {}
     (by decide)⟩

/-- C2: for a connector with `connection_type = "sentinel"`, `connect(db)`
builds the sentinel client with exactly one `(host, port)` endpoint parsed
from the configured URI, the password parsed from the URI, and socket
timeout equal to the per-call `timeout` kwarg when given, else the config's
`db_timeout`; it then requests the master handle for the configured service
with the decode flag, issues `SELECT db` on that handle exactly once and
strictly after master resolution, and returns that handle (the `SELECT`
outcome deciding success). -/
theorem connect_sentinel_spec {H S E : Type} (o : Oracle H S E) (cfg : DBConfig)
    (self : MemDBConnector) (db : Int) (kw : Kwargs) (s : S) (conn : H)
    (h : self.connection_type = some "sentinel")
    (hs : o.sentinelInit [((urlparse self.uri).hostname, (urlparse self.uri).port)]
            (match kw.timeout with | some t => some t | none => cfg.db_timeout)
            (urlparse self.uri).password = .ok s)
    (hm : o.master_for s self.service (kw.decode_response.getD true) = .ok conn) :
    self.connect o cfg db kw =
      { post := self,
        trace := [Event.sentinelInit
                    [((urlparse self.uri).hostname, (urlparse self.uri).port)]
                    (match kw.timeout with | some t => some t | none => cfg.db_timeout)
                    (urlparse self.uri).password,
                  Event.master_for s self.service (kw.decode_response.getD true),
                  Event.select conn db],
        result := match o.select conn db with
                  | .ok _ => .ok conn
                  | .error e => .error e } := by
  simp only [MemDBConnector.connect, if_pos h, MemDBConnector._sentinel, hs]
  simp only [hm]
  cases hsel : o.select conn db with
  | ok u => rfl
  | error e => rfl

/-- Witness for C2 at `connSent` (spec's scenario 2: password `"pw"`,
endpoint `("localhost", 6379)`, master `"mymaster"`, `db = 3`). -/
theorem connect_sentinel_spec_witness :
    connSent.connection_type = some "sentinel" ∧
    oracleNat.sentinelInit
        [((urlparse connSent.uri).hostname, (urlparse connSent.uri).port)]
        (match ({} : Kwargs).timeout with | some t => some t | none => cfgSent.db_timeout)
        (urlparse connSent.uri).password = .ok 1 ∧
    oracleNat.master_for 1 connSent.service (({} : Kwargs).decode_response.getD true) = .ok 2 ∧
    connSent.connect oracleNat cfgSent 3 {} =
      { post := connSent,
        trace := [Event.sentinelInit
                    [((urlparse connSent.uri).hostname, (urlparse connSent.uri).port)]
                    (match ({} : Kwargs).timeout with | some t => some t | none => cfgSent.db_timeout)
                    (urlparse connSent.uri).password,
                  Event.master_for 1 connSent.service (({} : Kwargs).decode_response.getD true),
                  Event.select 2 3],
        result := match oracleNat.select 2 3 with
                  | .ok _ => .ok 2
                  | .error e => .error e } :=
  ⟨by decide, rfl, rfl,
   connect_sentinel_spec oracleNat cfgSent connSent 3 {} 1 2 (by decide) rfl rfl⟩

/-- C8: a connect call — on the direct branch and on the sentinel branch,
whichever way each transport request turns out — leaves every field of the
connector unchanged (`post = self`), so a failed call leaves the instance
reusable. -/
theorem connect_preserves_connector {H S E : Type} (o : Oracle H S E)
    (cfg : DBConfig) (self : MemDBConnector) (db : Int) (kw : Kwargs) :
    (self.connect o cfg db kw).post = self ∧
    (MemDBConnector._sentinel self o cfg db kw).post = self := by
  have hsent : (MemDBConnector._sentinel self o cfg db kw).post = self := by
    simp only [MemDBConnector._sentinel]
    split
    · rfl
    · split
      · rfl
      · split <;> rfl
  refine ⟨?_, hsent⟩
  simp only [MemDBConnector.connect]
  split
  · exact hsent
  · rfl

/-- C9: the blocking connect operation (modelled from the spec, which fixes
it as structurally identical to the suspending one) and the suspending
`connect` embedded from `asyncio/__init__.py` have identical observable
decision logic: same construction, same branch taken, same transport
requests with the same parameters in the same order, and the same result
(success or error) for the same oracle answers. -/
theorem sync_async_equiv {H S E : Type} (o : Oracle H S E) (cfg : DBConfig)
    (rt ms : Option String) (self : MemDBConnector) (db : Int) (kw : Kwargs) :
    syncInit cfg rt ms = MemDBConnector.init cfg rt ms ∧
    syncConnect self o cfg db kw = MemDBConnector.connect self o cfg db kw := by
  refine ⟨rfl, ?_⟩
  simp only [syncConnect, MemDBConnector.connect, MemDBConnector._sentinel]

end MemDbUtils
